import Mathlib

/-!
Shallow embedding of the goarchive backup core: the provider registry
(core/registry), the backup/restore orchestrator (`BackupService` in the
core package) and the reference disk storage backend (storage/disk/disk.go).

Conventions of the embedding:
* byte payloads are `List Nat` with every element a byte value;
* Go `time.Time` values are a `Nat` of nanoseconds since the Unix epoch,
  always rendered in UTC (the formats used by the code carry second
  granularity, so the sub-second part only distinguishes instants);
* the local directory used by the disk provider is a list of directory
  entries (name, directory flag, content bytes, modification time);
* Go errors are `Except String`, carrying the formatted message;
* operating-system failures that the Go code only forwards (ReadDir
  failing, WriteFile failing, a stream read failing) are not modelled:
  every modelled run is one in which the underlying filesystem primitives
  succeed, which is the regime all the examined claims quantify over.
-/

set_option maxRecDepth 16384

namespace GoArchive

/-! ## Bytes and strings -/

/-- UTF-8 bytes of a string; the embedding only ever applies it to ASCII
data, where code points and bytes coincide. -/
def strBytes (s : String) : List Nat :=
  s.data.map Char.toNat

/-- Decode bytes back to a string (ASCII inverse of `strBytes`). -/
def bytesToStr (l : List Nat) : String :=
  String.mk (l.map Char.ofNat)

/-- Go `strings.HasSuffix s p`. -/
def hasSuffixStr (s p : String) : Bool :=
  decide (p.data <:+ s.data)

/-! ## MD5 (crypto/md5 as used by the disk and s3 providers)

A direct implementation of RFC 1321 over `Nat` with explicit reduction
modulo `2 ^ 32`, so that the checksum written into `BackupMetadata` is the
real digest and concrete scenarios can be evaluated. -/

def mask32 : Nat := 4294967295

def add32 (a b : Nat) : Nat := (a + b) % 4294967296

def not32 (x : Nat) : Nat := Nat.xor x mask32

def rotl32 (x s : Nat) : Nat :=
  Nat.lor ((x <<< s) % 4294967296) (x >>> (32 - s))

/-- The 64 MD5 sine-derived constants. -/
def md5K : List Nat :=
  [0xd76aa478, 0xe8c7b756, 0x242070db, 0xc1bdceee,
   0xf57c0faf, 0x4787c62a, 0xa8304613, 0xfd469501,
   0x698098d8, 0x8b44f7af, 0xffff5bb1, 0x895cd7be,
   0x6b901122, 0xfd987193, 0xa679438e, 0x49b40821,
   0xf61e2562, 0xc040b340, 0x265e5a51, 0xe9b6c7aa,
   0xd62f105d, 0x02441453, 0xd8a1e681, 0xe7d3fbc8,
   0x21e1cde6, 0xc33707d6, 0xf4d50d87, 0x455a14ed,
   0xa9e3e905, 0xfcefa3f8, 0x676f02d9, 0x8d2a4c8a,
   0xfffa3942, 0x8771f681, 0x6d9d6122, 0xfde5380c,
   0xa4beea44, 0x4bdecfa9, 0xf6bb4b60, 0xbebfbc70,
   0x289b7ec6, 0xeaa127fa, 0xd4ef3085, 0x04881d05,
   0xd9d4d039, 0xe6db99e5, 0x1fa27cf8, 0xc4ac5665,
   0xf4292244, 0x432aff97, 0xab9423a7, 0xfc93a039,
   0x655b59c3, 0x8f0ccc92, 0xffeff47d, 0x85845dd1,
   0x6fa87e4f, 0xfe2ce6e0, 0xa3014314, 0x4e0811a1,
   0xf7537e82, 0xbd3af235, 0x2ad7d2bb, 0xeb86d391]

/-- The 64 per-round left-rotation amounts. -/
def md5S : List Nat :=
  [7, 12, 17, 22, 7, 12, 17, 22, 7, 12, 17, 22, 7, 12, 17, 22,
   5, 9, 14, 20, 5, 9, 14, 20, 5, 9, 14, 20, 5, 9, 14, 20,
   4, 11, 16, 23, 4, 11, 16, 23, 4, 11, 16, 23, 4, 11, 16, 23,
   6, 10, 15, 21, 6, 10, 15, 21, 6, 10, 15, 21, 6, 10, 15, 21]

/-- Little-endian byte decomposition, `n` bytes wide. -/
def leBytes : Nat → Nat → List Nat
  | 0, _ => []
  | n + 1, x => (x % 256) :: leBytes n (x / 256)

/-- RFC 1321 padding: a `0x80` byte, zeros up to 56 mod 64, then the
original bit length as a 64-bit little-endian quantity. -/
def md5Pad (msg : List Nat) : List Nat :=
  msg ++ [128] ++ List.replicate ((120 - (msg.length + 1) % 64) % 64) 0
    ++ leBytes 8 ((8 * msg.length) % 18446744073709551616)

/-- Group bytes into little-endian 32-bit words. -/
def bytesToWords : List Nat → List Nat
  | a :: b :: c :: d :: rest =>
      (a + 256 * b + 65536 * c + 16777216 * d) :: bytesToWords rest
  | _ => []

/-- The round-dependent mixing function. -/
def md5F (i b c d : Nat) : Nat :=
  if i < 16 then Nat.lor (Nat.land b c) (Nat.land (not32 b) d)
  else if i < 32 then Nat.lor (Nat.land d b) (Nat.land (not32 d) c)
  else if i < 48 then Nat.xor (Nat.xor b c) d
  else Nat.xor c (Nat.lor b (not32 d))

/-- The round-dependent message-word index. -/
def md5G (i : Nat) : Nat :=
  if i < 16 then i
  else if i < 32 then (5 * i + 1) % 16
  else if i < 48 then (3 * i + 5) % 16
  else (7 * i) % 16

/-- One of the 64 rounds of the MD5 compression function. -/
def md5Step (block : List Nat) (st : Nat × Nat × Nat × Nat) (i : Nat) :
    Nat × Nat × Nat × Nat :=
  let (a, b, c, d) := st
  let tmp := add32 (add32 (add32 a (md5F i b c d)) (md5K.getD i 0))
    (block.getD (md5G i) 0)
  (d, add32 b (rotl32 tmp (md5S.getD i 0)), b, c)

/-- Compress one 16-word block into the running state. -/
def md5Compress (st : Nat × Nat × Nat × Nat) (block : List Nat) :
    Nat × Nat × Nat × Nat :=
  let (a0, b0, c0, d0) := st
  let (a, b, c, d) := (List.range 64).foldl (md5Step block) st
  (add32 a0 a, add32 b0 b, add32 c0 c, add32 d0 d)

/-- Split a word list into blocks of 16 words (padded input is always a
whole number of blocks; a ragged tail would become a short final block). -/
def chunks16 : List Nat → List (List Nat)
  | [] => []
  | w1 :: w2 :: w3 :: w4 :: w5 :: w6 :: w7 :: w8 ::
    w9 :: w10 :: w11 :: w12 :: w13 :: w14 :: w15 :: w16 :: rest =>
      [w1, w2, w3, w4, w5, w6, w7, w8, w9, w10, w11, w12, w13, w14, w15, w16]
        :: chunks16 rest
  | ws => [ws]

/-- The 16 raw digest bytes of a byte message. -/
def md5Digest (msg : List Nat) : List Nat :=
  let blocks := chunks16 (bytesToWords (md5Pad msg))
  let (a, b, c, d) :=
    blocks.foldl md5Compress (1732584193, 4023233417, 2562383102, 271733878)
  leBytes 4 a ++ leBytes 4 b ++ leBytes 4 c ++ leBytes 4 d

def hexChar (n : Nat) : Char :=
  "0123456789abcdef".data.getD n '0'

/-- Lowercase hex encoding, `encoding/hex.EncodeToString`. -/
def bytesToHex (l : List Nat) : String :=
  String.mk (l.foldr (fun b acc => hexChar (b / 16) :: hexChar (b % 16) :: acc) [])

/-- `hex.EncodeToString(md5.Sum(data)[:])` — the checksum the providers
store. -/
def md5Hex (msg : List Nat) : String :=
  bytesToHex (md5Digest msg)

/-! ## Go time formatting

`time.Time` is a `Nat` of nanoseconds since the Unix epoch, displayed in
UTC. The code uses two layouts: `"20060102-150405"` for backup ids and
filenames, and RFC 3339 for the sidecar metadata file. -/

def nanosPerSec : Nat := 1000000000

/-- Gregorian date of a day count since 1970-01-01 (proleptic civil
calendar). -/
def civilFromDays (z : Nat) : Nat × Nat × Nat :=
  let z' := z + 719468
  let era := z' / 146097
  let doe := z' % 146097
  let yoe := (doe - doe / 1460 + doe / 36524 - doe / 146096) / 365
  let y := yoe + era * 400
  let doy := doe - (365 * yoe + yoe / 4 - yoe / 100)
  let mp := (5 * doy + 2) / 153
  let d := doy - (153 * mp + 2) / 5 + 1
  let m := if mp < 10 then mp + 3 else mp - 9
  (if m ≤ 2 then y + 1 else y, m, d)

/-- Day count since 1970-01-01 of a Gregorian date (years ≥ 1970). -/
def daysFromCivil (y m d : Nat) : Nat :=
  let y' := if m ≤ 2 then y - 1 else y
  let era := y' / 400
  let yoe := y' % 400
  let doy := (153 * (if 2 < m then m - 3 else m + 9) + 2) / 5 + d - 1
  let doe := yoe * 365 + yoe / 4 - yoe / 100 + doy
  era * 146097 + doe - 719468

def pad2 (n : Nat) : String :=
  if n < 10 then "0" ++ toString n else toString n

def pad4 (n : Nat) : String :=
  if n < 10 then "000" ++ toString n
  else if n < 100 then "00" ++ toString n
  else if n < 1000 then "0" ++ toString n
  else toString n

/-- Go `t.Format("20060102-150405")` in UTC. -/
def formatCompact (t : Nat) : String :=
  let secs := t / nanosPerSec
  let c := civilFromDays (secs / 86400)
  let tod := secs % 86400
  pad4 c.1 ++ pad2 c.2.1 ++ pad2 c.2.2 ++ "-" ++
    pad2 (tod / 3600) ++ pad2 (tod % 3600 / 60) ++ pad2 (tod % 60)

/-- Go `t.Format(time.RFC3339)` for a UTC instant with whole seconds. -/
def formatRFC3339 (t : Nat) : String :=
  let secs := t / nanosPerSec
  let c := civilFromDays (secs / 86400)
  let tod := secs % 86400
  pad4 c.1 ++ "-" ++ pad2 c.2.1 ++ "-" ++ pad2 c.2.2 ++ "T" ++
    pad2 (tod / 3600) ++ ":" ++ pad2 (tod % 3600 / 60) ++ ":" ++
    pad2 (tod % 60) ++ "Z"

def isDigitCh (c : Char) : Bool :=
  48 ≤ c.toNat && c.toNat ≤ 57

def digitVal (c : Char) : Nat := c.toNat - 48

/-- Go `time.Parse(time.RFC3339, s)`, restricted to the UTC whole-second
strings that `formatRFC3339` itself produces (the only strings the code
ever feeds back into it). -/
def rfc3339Parse (s : String) : Option Nat :=
  match s.data with
  | [y1, y2, y3, y4, s1, m1, m2, s2, d1, d2, t0, h1, h2, c1, n1, n2, c2,
     e1, e2, z0] =>
    if (s1 = '-' && s2 = '-' && t0 = 'T' && c1 = ':' && c2 = ':' && z0 = 'Z'
        && [y1, y2, y3, y4, m1, m2, d1, d2, h1, h2, n1, n2, e1, e2].all isDigitCh) then
      let y := 1000 * digitVal y1 + 100 * digitVal y2 + 10 * digitVal y3 + digitVal y4
      let mo := 10 * digitVal m1 + digitVal m2
      let da := 10 * digitVal d1 + digitVal d2
      let secs := daysFromCivil y mo da * 86400 +
        (10 * digitVal h1 + digitVal h2) * 3600 +
        (10 * digitVal n1 + digitVal n2) * 60 +
        (10 * digitVal e1 + digitVal e2)
      some (secs * nanosPerSec)
    else none
  | _ => none

/-- Go `a.After b` on instants. -/
def timeAfter (a b : Nat) : Bool :=
  decide (b < a)

/-! ## Data model (core package) -/

/-- `core.DatabaseMetadata`. -/
structure DatabaseMetadata where
  type : String
  version : String
  size : Nat
  name : String
deriving Repr, DecidableEq

/-- `core.BackupMetadata`. `tags` is `none` for a nil Go map and
`some assoc` for an allocated one, so a non-nil empty map is `some []`. -/
structure BackupMetadata where
  id : String
  databaseName : String
  databaseType : String
  timestamp : Nat
  size : Nat
  checksum : String
  tags : Option (List (String × String))
deriving Repr, DecidableEq

/-! ## Disk storage provider (storage/disk/disk.go)

The provider's directory is a list of entries; names are the keys the
filesystem resolves. `modTime` is the entry's modification time as
`os.DirEntry.Info().ModTime()` reports it. -/

structure DirEntry where
  name : String
  isDir : Bool
  content : List Nat
  modTime : Nat
deriving Repr, DecidableEq

/-- The state of the provider's backup directory. -/
abbrev DiskState := List DirEntry

/-- `os.WriteFile`: truncate-and-replace an existing entry, else create
the file. -/
def writeFile (fs : DiskState) (name : String) (content : List Nat)
    (now : Nat) : DiskState :=
  if fs.any (fun e => e.name = name) then
    fs.map (fun e =>
      if e.name = name then
        { e with isDir := false, content := content, modTime := now }
      else e)
  else
    fs ++ [{ name := name, isDir := false, content := content, modTime := now }]

/-- `Provider.getBackupFilename`: `{Name}_{Type}_{Timestamp:20060102-150405}.dump`. -/
def getBackupFilename (metadata : BackupMetadata) : String :=
  metadata.databaseName ++ "_" ++ metadata.databaseType ++ "_" ++
    formatCompact metadata.timestamp ++ ".dump"

/-- The sidecar content written by `Provider.Upload`. -/
def metaContent (m : BackupMetadata) : String :=
  "ID: " ++ m.id ++ "\nDatabaseName: " ++ m.databaseName ++
    "\nDatabaseType: " ++ m.databaseType ++ "\nTimestamp: " ++
    formatRFC3339 m.timestamp ++ "\nSize: " ++ toString m.size ++
    "\nChecksum: " ++ m.checksum ++ "\n"

/-- `Provider.Upload`: buffer the stream, fill `Checksum`/`Size` on the
record, write the dump file, then best-effort write the `.meta` sidecar.
The stream is the already-read byte payload, and the (non-fatal even in
Go) sidecar write is modelled as succeeding; `now` is the write time the
filesystem stamps on both files. Returns the new directory state and the
mutated record. -/
def diskUpload (fs : DiskState) (now : Nat) (data : List Nat)
    (metadata : BackupMetadata) : DiskState × BackupMetadata :=
  let m := { metadata with checksum := md5Hex data, size := data.length }
  let filename := getBackupFilename m
  let fs1 := writeFile fs filename data now
  let fs2 := writeFile fs1 (filename ++ ".meta") (strBytes (metaContent m)) now
  (fs2, m)

/-- Go `strings.Split(content, "\n")` on the character level. -/
def splitLines : List Char → List (List Char)
  | [] => [[]]
  | c :: rest =>
    if c = '\n' then [] :: splitLines rest
    else
      match splitLines rest with
      | h :: t => (c :: h) :: t
      | [] => [[c]]

/-- Go `strings.SplitN(line, ": ", 2)`: split at the first occurrence of
`": "`, or `none` when it does not occur. -/
def splitKeyValue : List Char → Option (List Char × List Char)
  | [] => none
  | ':' :: ' ' :: rest => some ([], rest)
  | c :: rest => (splitKeyValue rest).map (fun p => (c :: p.1, p.2))

/-- `Provider.parseMetadata`: line-by-line `Key: Value` merge into the
record. `Size` is absent from the Go switch, so it is never overwritten;
an unparseable timestamp leaves the filesystem-derived one. -/
def parseMetadata (backup : BackupMetadata) (content : String) :
    BackupMetadata :=
  (splitLines content.data).foldl (fun b line =>
    match splitKeyValue line with
    | none => b
    | some (k, v) =>
      let key := String.mk k
      let value := String.mk v
      if key = "ID" then { b with id := value }
      else if key = "DatabaseName" then { b with databaseName := value }
      else if key = "DatabaseType" then { b with databaseType := value }
      else if key = "Checksum" then { b with checksum := value }
      else if key = "Timestamp" then
        match rfc3339Parse value with
        | some t => { b with timestamp := t }
        | none => b
      else b) backup

/-- The per-entry filter of `Provider.List`: not a directory, not a
`.meta` sidecar, and matching the `.dump` primary-object convention. -/
def listedEntry (e : DirEntry) : Bool :=
  !e.isDir && !hasSuffixStr e.name ".meta" && hasSuffixStr e.name ".dump"

/-- The record `Provider.List` builds for one listed entry: filename as
`ID`, filesystem-derived timestamp and size, then the sidecar merged over
it when `{name}.meta` is a readable file. -/
def listRecord (fs : DiskState) (e : DirEntry) : BackupMetadata :=
  let backup : BackupMetadata :=
    { id := e.name, databaseName := "", databaseType := "",
      timestamp := e.modTime, size := e.content.length, checksum := "",
      tags := none }
  match fs.find? (fun f => f.name = e.name ++ ".meta" && !f.isDir) with
  | some mf => parseMetadata backup (bytesToStr mf.content)
  | none => backup

/-- The ordering `Provider.List` sorts by: `sort.Slice` with
`backups[i].Timestamp.After(backups[j].Timestamp)`, i.e. timestamps
non-increasing. `sort.Slice` is unstable, so among equal timestamps Go
fixes no order; the model picks the insertion-sort result, one of the
admissible outcomes. -/
def newestFirst : BackupMetadata → BackupMetadata → Prop :=
  fun a b => b.timestamp ≤ a.timestamp

instance : DecidableRel newestFirst :=
  fun a b => Nat.decLe b.timestamp a.timestamp

instance : IsTotal BackupMetadata newestFirst :=
  ⟨fun a b => Nat.le_total b.timestamp a.timestamp⟩

instance : IsTrans BackupMetadata newestFirst :=
  ⟨fun _ _ _ h1 h2 => Nat.le_trans h2 h1⟩

/-- `Provider.List`: skip directories, sidecars and non-`.dump` entries,
build a record per surviving entry, then sort newest first. `os.ReadDir`
yields the entries (its only failure mode, an unreadable directory, is
outside the model, as is a failing `entry.Info()`); the iteration order
does not affect the result beyond tie-breaking since the final sort
orders by timestamp. -/
def diskList (fs : DiskState) : List BackupMetadata :=
  List.insertionSort newestFirst ((fs.filter listedEntry).map (listRecord fs))

/-- `Provider.Download`: open `path/backupID`; a missing entry is the
`backup not found` error. Opening succeeds on any existing entry (Go
`os.Open` also opens directories). -/
def diskDownload (fs : DiskState) (backupID : String) :
    Except String (List Nat) :=
  match fs.find? (fun e => e.name = backupID) with
  | none => Except.error ("backup not found: " ++ backupID)
  | some e => Except.ok e.content

/-- `Provider.Delete`: remove the entry, failing with `backup not found`
when it does not exist, then best-effort remove the `.meta` sidecar,
ignoring its absence. -/
def diskDelete (fs : DiskState) (backupID : String) :
    Except String DiskState :=
  if fs.any (fun e => e.name = backupID) then
    Except.ok (((fs.filter (fun e => !(e.name = backupID))).filter
      (fun e => !(e.name = backupID ++ ".meta"))))
  else
    Except.error ("backup not found: " ++ backupID)

/-! ## Registry (core/registry.go)

Factories may observe and mutate an explicit side-effect state `σ` (the
tests use an invocation counter); the resolved instance type is a
parameter since the registry never inspects it. The Go map is an
association list with last-registration-wins replacement. -/

structure DatabaseConfig where
  type : String
  host : String
  port : Nat
  username : String
  password : String
  database : String
  sslMode : String
deriving Repr, DecidableEq

structure StorageConfig where
  type : String
  bucket : String
  region : String
  endpoint : String
  accessKey : String
  secretKey : String
  stoPrefix : String
  path : String
deriving Repr, DecidableEq

/-- `core.DatabaseFactory` with explicit effect state. -/
def DbFactory (σ α : Type) : Type :=
  DatabaseConfig → σ → Except String α × σ

/-- `core.StorageFactory` with explicit effect state; the `Unit` argument
stands for the `context.Context` it receives. -/
def StFactory (σ β : Type) : Type :=
  Unit → StorageConfig → σ → Except String β × σ

/-- Go map lookup on the name-keyed association list. -/
def lookupEntry {φ : Type} (entries : List (String × φ)) (name : String) :
    Option φ :=
  (entries.find? (fun p => p.1 = name)).map (·.2)

/-- Go map insert: `Registry.RegisterDatabase` / `RegisterStorage`
unconditionally overwrite the entry for `name`. -/
def registerEntry {φ : Type} (entries : List (String × φ)) (name : String)
    (factory : φ) : List (String × φ) :=
  if entries.any (fun p => p.1 = name) then
    entries.map (fun p => if p.1 = name then (name, factory) else p)
  else
    entries ++ [(name, factory)]

/-- `Registry.GetDatabase`: look the name up; absent names fail with the
`not registered` message and touch no factory (the state `s` is returned
untouched); otherwise the factory runs on the config and its result is
returned as-is. -/
def getDatabase {σ α : Type} (databases : List (String × DbFactory σ α))
    (name : String) (config : DatabaseConfig) (s : σ) :
    Except String α × σ :=
  match lookupEntry databases name with
  | none => (Except.error ("database provider '" ++ name ++ "' not registered"), s)
  | some factory => factory config s

/-- `Registry.GetStorage`, same shape with the context passed through. -/
def getStorage {σ β : Type} (storages : List (String × StFactory σ β))
    (ctx : Unit) (name : String) (config : StorageConfig) (s : σ) :
    Except String β × σ :=
  match lookupEntry storages name with
  | none => (Except.error ("storage provider '" ++ name ++ "' not registered"), s)
  | some factory => factory ctx config s

/-! ## Orchestrator (`BackupService`)

`Execute`/`Restore` are single synchronous sequences over the two
injected backends. A backend run is its outcome; the emitted trace of
events records which backend operations ran, in order, including every
`Close` of an acquired stream (the `defer reader.Close()` in the code).
`generateBackupID` and the record's `Timestamp` come from two separate
`time.Now()` calls, hence the two time arguments. -/

inductive OrchEvent where
  | getMetadataCall
  | backupCall
  | uploadCall (m : BackupMetadata)
  | streamClose
  | downloadCall (id : String)
  | restoreCall
deriving Repr, DecidableEq

/-- The database backend as `Execute` observes it: the results of its
`GetMetadata` and `Backup` calls. -/
structure DbBackend where
  getMetadata : Except String DatabaseMetadata
  backup : Except String Unit

/-- `generateBackupID`: `time.Now().Format("20060102-150405")`. -/
def generateBackupID (now : Nat) : String :=
  formatCompact now

/-- The record `Execute` constructs in its step 3: fresh id from
`generateBackupID`, name and type copied from the snapshot, the current
time, a freshly allocated empty tag map, and Go zero values for the
fields `Upload` is to fill. -/
def executedRecord (dbMeta : DatabaseMetadata) (nowID nowTS : Nat) :
    BackupMetadata :=
  { id := generateBackupID nowID, databaseName := dbMeta.name,
    databaseType := dbMeta.type, timestamp := nowTS, size := 0,
    checksum := "", tags := some [] }

/-- `BackupService.Execute`: metadata query, stream open (closed exactly
once by the deferred close on every later return), record construction,
upload; `upload` maps the record it is handed to its outcome, the mutated
record on success. `nowID` and `nowTS` are the instants of the two
`time.Now()` calls. -/
def executeService (db : DbBackend)
    (upload : BackupMetadata → Except String BackupMetadata)
    (nowID nowTS : Nat) : Except String BackupMetadata × List OrchEvent :=
  match db.getMetadata with
  | Except.error e => (Except.error e, [OrchEvent.getMetadataCall])
  | Except.ok dbMeta =>
    match db.backup with
    | Except.error e =>
        (Except.error e, [OrchEvent.getMetadataCall, OrchEvent.backupCall])
    | Except.ok _ =>
      let metadata := executedRecord dbMeta nowID nowTS
      match upload metadata with
      | Except.error e =>
          (Except.error e,
           [OrchEvent.getMetadataCall, OrchEvent.backupCall,
            OrchEvent.uploadCall metadata, OrchEvent.streamClose])
      | Except.ok m =>
          (Except.ok m,
           [OrchEvent.getMetadataCall, OrchEvent.backupCall,
            OrchEvent.uploadCall metadata, OrchEvent.streamClose])

/-- `BackupService.Restore`: download (its stream closed exactly once by
the deferred close on every later return), then the database restore. -/
def restoreService (download : String → Except String Unit)
    (dbRestore : Except String Unit) (backupID : String) :
    Except String Unit × List OrchEvent :=
  match download backupID with
  | Except.error e => (Except.error e, [OrchEvent.downloadCall backupID])
  | Except.ok _ =>
    match dbRestore with
    | Except.error e =>
        (Except.error e,
         [OrchEvent.downloadCall backupID, OrchEvent.restoreCall,
          OrchEvent.streamClose])
    | Except.ok _ =>
        (Except.ok (),
         [OrchEvent.downloadCall backupID, OrchEvent.restoreCall,
          OrchEvent.streamClose])

/-! ## Helper lemmas and example inputs -/

theorem strDataAppend (s t : String) : (s ++ t).data = s.data ++ t.data := by
  cases s; cases t; rfl

theorem eqSuffixOfLength {α : Type} (l1 l2 l : List α)
    (h1 : l1 <:+ l) (h2 : l2 <:+ l) (hlen : l1.length = l2.length) :
    l1 = l2 := by
  obtain ⟨s1, h1⟩ := h1
  obtain ⟨s2, h2⟩ := h2
  have hl : s1.length = s2.length := by
    have := congrArg List.length (h1.trans h2.symm)
    simp only [List.length_append] at this
    omega
  exact List.append_inj_right (h1.trans h2.symm) hl

theorem stringNeAppendMeta (s : String) : ¬ s = s ++ ".meta" := by
  intro h
  have h2 := congrArg String.data h
  rw [strDataAppend] at h2
  have h3 := congrArg List.length h2
  rw [List.length_append] at h3
  have h5 : (".meta" : String).data.length = 5 := rfl
  omega

theorem stringAppendMetaNe (s : String) : ¬ s ++ ".meta" = s :=
  fun h => stringNeAppendMeta s h.symm

theorem getBackupFilename_update (m : BackupMetadata) (c : String) (s : Nat) :
    getBackupFilename { m with checksum := c, size := s } =
      getBackupFilename m := rfl

theorem hasSuffixAppendSelf (s p : String) :
    hasSuffixStr (s ++ p) p = true := by
  simp only [hasSuffixStr, strDataAppend, decide_eq_true_eq]
  exact List.suffix_append s.data p.data

theorem hasSuffixAppendOfSuffix (s t p : String)
    (h : hasSuffixStr t p = true) : hasSuffixStr (s ++ t) p = true := by
  simp only [hasSuffixStr, strDataAppend, decide_eq_true_eq] at h ⊢
  obtain ⟨w, hw⟩ := h
  exact ⟨s.data ++ w, by rw [List.append_assoc, hw]⟩

theorem metaSuffixFalseOfDump (n : String)
    (h : hasSuffixStr n ".dump" = true) :
    hasSuffixStr n ".meta" = false := by
  simp only [hasSuffixStr, decide_eq_true_eq] at h
  rw [hasSuffixStr, decide_eq_false_iff_not]
  intro hm
  have := eqSuffixOfLength ".meta".data ".dump".data n.data hm h (by decide)
  exact absurd this (by decide)

theorem dumpNotMeta (s : String) :
    hasSuffixStr (s ++ ".dump") ".meta" = false := by
  simp only [hasSuffixStr, strDataAppend, decide_eq_false_iff_not]
  intro h
  have hd : ".dump".data <:+ s.data ++ ".dump".data :=
    List.suffix_append s.data ".dump".data
  have := eqSuffixOfLength ".meta".data ".dump".data
    (s.data ++ ".dump".data) h hd (by decide)
  exact absurd this (by decide)

/-- Example input record for the concrete disk-provider scenarios
(timestamp 2024-02-15T12:35:00Z in nanoseconds). -/
def exMeta : BackupMetadata :=
  { id := "backup-001", databaseName := "testdb", databaseType := "postgres",
    timestamp := 1708000500000000000, size := 0, checksum := "",
    tags := none }

/-- Example database config (the values the registry tests use). -/
def exDbConfig : DatabaseConfig :=
  { type := "", host := "localhost", port := 5432, username := "test",
    password := "", database := "", sslMode := "" }

/-- Example storage config. -/
def exStConfig : StorageConfig :=
  { type := "test", bucket := "", region := "", endpoint := "",
    accessKey := "", secretKey := "", stoPrefix := "", path := "./test" }

/-! ## Claims -/

/-- C1: the round-trip law fails on the disk backend. Uploading the
payload `"hello"` under a record whose `ID` is `"backup-001"` leaves the
record's `ID` untouched, stores the object under the name-derived key
`testdb_postgres_20240215-123500.dump`, and `Download` of the record's
`ID` then fails with `backup not found` — while `Download` of the derived
filename returns the payload byte-for-byte. The record `List` returns
also carries the sidecar-restored `ID` `"backup-001"`, so the provider's
own download-after-list test fails the same way. -/
theorem diskRoundTripByRecordID_fails :
    (diskUpload [] 1708000500000000000 (strBytes "hello") exMeta).2.id
        = "backup-001" ∧
    diskDownload (diskUpload [] 1708000500000000000 (strBytes "hello") exMeta).1
        "backup-001" = Except.error "backup not found: backup-001" ∧
    diskDownload (diskUpload [] 1708000500000000000 (strBytes "hello") exMeta).1
        (getBackupFilename
          (diskUpload [] 1708000500000000000 (strBytes "hello") exMeta).2)
        = Except.ok (strBytes "hello") ∧
    (diskList (diskUpload [] 1708000500000000000 (strBytes "hello") exMeta).1).map
        (fun r => r.id) = ["backup-001"] := by
  refine ⟨rfl, rfl, rfl, rfl⟩

/-- C2: `Upload` fills the record's `Size` with the payload length and its
`Checksum` with the MD5 hex digest of exactly the uploaded bytes, for
every payload and every starting state; the digest depends only on the
payload, so repeated uploads of the same bytes agree; and on the concrete
17-byte payload `"test backup data!"` the results are `Size = 17` and the
MD5 hex digest `da5a8c4038230c0ee4a7dcf5a38167c8` of those bytes. -/
theorem uploadSetsSizeAndChecksum :
    (∀ (fs : DiskState) (now : Nat) (data : List Nat) (m : BackupMetadata),
      (diskUpload fs now data m).2.size = data.length ∧
      (diskUpload fs now data m).2.checksum = md5Hex data) ∧
    (∀ (fs fs2 : DiskState) (now now2 : Nat) (data : List Nat)
        (m m2 : BackupMetadata),
      (diskUpload fs now data m).2.checksum =
        (diskUpload fs2 now2 data m2).2.checksum) ∧
    (diskUpload [] 0 (strBytes "test backup data!") exMeta).2.size = 17 ∧
    (diskUpload [] 0 (strBytes "test backup data!") exMeta).2.checksum =
      "da5a8c4038230c0ee4a7dcf5a38167c8" := by
  exact ⟨fun fs now data m => ⟨rfl, rfl⟩,
    fun fs fs2 now now2 data m m2 => rfl, rfl, rfl⟩

/-- C5: `generateBackupID` formats the current time to whole seconds, so
two invocations within the same second — here half a second apart —
return the very same identifier and the claimed distinctness fails. -/
theorem generateBackupIDCollidesSameSecond :
    (1700000000000000000 : Nat) ≠ 1700000000500000000 ∧
    1700000000000000000 / nanosPerSec = 1700000000500000000 / nanosPerSec ∧
    generateBackupID 1700000000000000000 =
      generateBackupID 1700000000500000000 ∧
    generateBackupID 1700000000000000000 = "20231114-221320" := by
  refine ⟨by decide, by decide, by decide, by decide⟩

/-- A database factory that fails with `factory error` and bumps the
invocation counter, as in the registry tests. -/
def failDbFactory : DbFactory Nat Unit :=
  fun _ s => (Except.error "factory error", s + 1)

/-- A database factory that succeeds and bumps the invocation counter. -/
def countDbFactory : DbFactory Nat Unit :=
  fun _ s => (Except.ok (), s + 1)

/-- A storage factory that succeeds and bumps the invocation counter. -/
def countStFactory : StFactory Nat Unit :=
  fun _ _ s => (Except.ok (), s + 1)

/-- C3: resolving a name absent from the registry fails with the
`not registered` error — whose message contains the name — while the
state every registered factory could have mutated is returned untouched,
so a counting constructor registered under a different name observes
zero calls; for `GetDatabase` and `GetStorage` alike. -/
theorem resolveUnregisteredFails :
    ∀ (σ α β : Type) (databases : List (String × DbFactory σ α))
      (storages : List (String × StFactory σ β)) (name : String)
      (dbConfig : DatabaseConfig) (stConfig : StorageConfig) (s : σ),
      lookupEntry databases name = none →
      lookupEntry storages name = none →
      getDatabase databases name dbConfig s =
        (Except.error ("database provider '" ++ name ++ "' not registered"), s) ∧
      name.data <:+:
        ("database provider '" ++ name ++ "' not registered").data ∧
      getStorage storages () name stConfig s =
        (Except.error ("storage provider '" ++ name ++ "' not registered"), s) ∧
      name.data <:+:
        ("storage provider '" ++ name ++ "' not registered").data := by
  intro σ α β databases storages name dbConfig stConfig s h1 h2
  refine ⟨by rw [getDatabase, h1], ⟨"database provider '".data,
      "' not registered".data, by simp [strDataAppend]⟩,
    by rw [getStorage, h2], ⟨"storage provider '".data,
      "' not registered".data, by simp [strDataAppend]⟩⟩

/-- C3 witness: with a counting constructor registered only under
`"other"`, resolving `"mock"` fails with the message containing `mock`
and the counter stays at zero. -/
theorem resolveUnregisteredFails_witness :
    lookupEntry [("other", countDbFactory)] "mock" = none ∧
    lookupEntry [("other", countStFactory)] "mock" = none ∧
    (getDatabase [("other", countDbFactory)] "mock" exDbConfig 0 =
      (Except.error "database provider 'mock' not registered", 0) ∧
     "mock".data <:+: "database provider 'mock' not registered".data ∧
     getStorage [("other", countStFactory)] () "mock" exStConfig 0 =
      (Except.error "storage provider 'mock' not registered", 0) ∧
     "mock".data <:+: "storage provider 'mock' not registered".data) :=
  ⟨rfl, rfl,
    resolveUnregisteredFails Nat Unit Unit [("other", countDbFactory)]
      [("other", countStFactory)] "mock" exDbConfig exStConfig 0 rfl rfl⟩

/-- C4 counterexample: registering a factory under `"test"` that fails
with `factory error` and resolving `"test"` yields exactly that error —
invoked once, message not wrapped: the backend name `test` occurs nowhere
in it. -/
theorem factoryErrorNotWrapped :
    getDatabase (registerEntry [] "test" failDbFactory) "test" exDbConfig 0 =
      (Except.error "factory error", 1) ∧
    ¬ ("test".data <:+: "factory error".data) := by
  exact ⟨rfl, by decide⟩

/-- C4 amended: resolving a registered name hands the looked-up factory
the config and the effect state and returns the factory's outcome — and
in particular its error — unchanged, with no wrapping of any kind; for
`GetDatabase` and `GetStorage` alike. -/
theorem factoryResultPropagatedUnchanged :
    ∀ (σ α β : Type) (databases : List (String × DbFactory σ α))
      (storages : List (String × StFactory σ β)) (name : String)
      (dbConfig : DatabaseConfig) (stConfig : StorageConfig) (s : σ)
      (f : DbFactory σ α) (g : StFactory σ β),
      (lookupEntry databases name = some f →
        getDatabase databases name dbConfig s = f dbConfig s) ∧
      (lookupEntry storages name = some g →
        getStorage storages () name stConfig s = g () stConfig s) := by
  intro σ α β databases storages name dbConfig stConfig s f g
  constructor
  · intro h
    rw [getDatabase, h]
  · intro h
    rw [getStorage, h]

/-- C4 amended witness: on the concrete failing registration the resolve
returns the factory's own `factory error` with the counter bumped to
one. -/
theorem factoryResultPropagatedUnchanged_witness :
    lookupEntry (registerEntry [] "test" failDbFactory) "test" =
      some failDbFactory ∧
    getDatabase (registerEntry [] "test" failDbFactory) "test" exDbConfig 0 =
      failDbFactory exDbConfig 0 :=
  ⟨rfl,
    (factoryResultPropagatedUnchanged Nat Unit Unit
      (registerEntry [] "test" failDbFactory) [] "test" exDbConfig exStConfig 0
      failDbFactory countStFactory).1 rfl⟩

/-- Example snapshot metadata, as the mock database backend reports it. -/
def exDbMeta : DatabaseMetadata :=
  { type := "mock", version := "1.0", size := 0, name := "testdb" }

/-- A database backend whose snapshot query and backup both succeed. -/
def okDb : DbBackend :=
  { getMetadata := Except.ok exDbMeta, backup := Except.ok () }

/-- A storage upload stub failing like the close-counting test's stub. -/
def failUpload : BackupMetadata → Except String BackupMetadata :=
  fun _ => Except.error "upload error"

/-- A storage upload stub that finalizes the record it is handed. -/
def okUpload : BackupMetadata → Except String BackupMetadata :=
  fun m => Except.ok { m with checksum := "c", size := 5 }

/-- C6: once `Execute` has opened the backup stream, every exit path —
upload success or upload error — closes it exactly once; when the stream
was never opened no close happens; in the upload-error run `Execute`
returns that error and the single close still happened; and `Restore`
closes the downloaded stream exactly once on both of its exit paths after
a successful download. -/
theorem backupStreamClosedExactlyOnce :
    (∀ (db : DbBackend)
      (upload : BackupMetadata → Except String BackupMetadata)
      (nowID nowTS : Nat) (dm : DatabaseMetadata),
      db.getMetadata = Except.ok dm → db.backup = Except.ok () →
      (executeService db upload nowID nowTS).2.count OrchEvent.streamClose = 1 ∧
      ∀ e, upload (executedRecord dm nowID nowTS) = Except.error e →
        (executeService db upload nowID nowTS).1 = Except.error e) ∧
    (∀ (db : DbBackend)
      (upload : BackupMetadata → Except String BackupMetadata)
      (nowID nowTS : Nat) (e : String),
      db.backup = Except.error e →
      (executeService db upload nowID nowTS).2.count OrchEvent.streamClose = 0) ∧
    (∀ (download : String → Except String Unit)
      (dbRestore : Except String Unit) (backupID : String),
      download backupID = Except.ok () →
      (restoreService download dbRestore backupID).2.count
        OrchEvent.streamClose = 1) := by
  refine ⟨?_, ?_, ?_⟩
  · intro db upload nowID nowTS dm hm hb
    constructor
    · simp only [executeService, hm, hb]
      cases hu : upload (executedRecord dm nowID nowTS) <;> simp [hu, List.count]
    · intro e hu
      simp [executeService, hm, hb, hu]
  · intro db upload nowID nowTS e hb
    cases hm : db.getMetadata <;> simp [executeService, hm, hb, List.count]
  · intro download dbRestore backupID hd
    cases hr : dbRestore <;> simp [restoreService, hd, hr, List.count]

/-- C6 witness: with a successful mock database backend and an upload
stub erroring with `upload error`, `Execute` returns that error and the
trace holds exactly one stream close; the restore stream is likewise
closed once. -/
theorem backupStreamClosedExactlyOnce_witness :
    okDb.getMetadata = Except.ok exDbMeta ∧
    okDb.backup = Except.ok () ∧
    (executeService okDb failUpload 0 0).2.count OrchEvent.streamClose = 1 ∧
    (executeService okDb failUpload 0 0).1 = Except.error "upload error" ∧
    (restoreService (fun _ => Except.ok ()) (Except.ok ()) "b").2.count
      OrchEvent.streamClose = 1 :=
  ⟨rfl, rfl,
    ((backupStreamClosedExactlyOnce.1 okDb failUpload 0 0 exDbMeta rfl rfl).1),
    ((backupStreamClosedExactlyOnce.1 okDb failUpload 0 0 exDbMeta rfl rfl).2
      "upload error" rfl),
    (backupStreamClosedExactlyOnce.2.2 (fun _ => Except.ok ())
      (Except.ok ()) "b" rfl)⟩

/-- C7: the record `Execute` hands to `Upload` carries a freshly
generated id, name and type copied from the snapshot, the current time as
`Timestamp`, an allocated (non-nil) empty tag map and zeroed
size/checksum; on upload success `Execute` returns exactly the record
`Upload` finalized, and each failure in the metadata query, the stream
open, or the upload is returned as-is as the first error, with no further
steps run. -/
theorem executeRecordConstruction :
    ∀ (db : DbBackend)
      (upload : BackupMetadata → Except String BackupMetadata)
      (nowID nowTS : Nat),
      (∀ e, db.getMetadata = Except.error e →
        executeService db upload nowID nowTS =
          (Except.error e, [OrchEvent.getMetadataCall])) ∧
      (∀ dm e, db.getMetadata = Except.ok dm → db.backup = Except.error e →
        executeService db upload nowID nowTS =
          (Except.error e, [OrchEvent.getMetadataCall, OrchEvent.backupCall])) ∧
      (∀ dm, db.getMetadata = Except.ok dm → db.backup = Except.ok () →
        (executeService db upload nowID nowTS).2 =
          [OrchEvent.getMetadataCall, OrchEvent.backupCall,
           OrchEvent.uploadCall (executedRecord dm nowID nowTS),
           OrchEvent.streamClose] ∧
        (executedRecord dm nowID nowTS).id = generateBackupID nowID ∧
        (executedRecord dm nowID nowTS).databaseName = dm.name ∧
        (executedRecord dm nowID nowTS).databaseType = dm.type ∧
        (executedRecord dm nowID nowTS).timestamp = nowTS ∧
        (executedRecord dm nowID nowTS).tags = some [] ∧
        (∀ m2, upload (executedRecord dm nowID nowTS) = Except.ok m2 →
          (executeService db upload nowID nowTS).1 = Except.ok m2) ∧
        (∀ e, upload (executedRecord dm nowID nowTS) = Except.error e →
          (executeService db upload nowID nowTS).1 = Except.error e)) := by
  intro db upload nowID nowTS
  refine ⟨?_, ?_, ?_⟩
  · intro e hm
    simp [executeService, hm]
  · intro dm e hm hb
    simp [executeService, hm, hb]
  · intro dm hm hb
    refine ⟨?_, rfl, rfl, rfl, rfl, rfl, ?_, ?_⟩
    · simp only [executeService, hm, hb]
      cases hu : upload (executedRecord dm nowID nowTS) <;> simp [hu]
    · intro m2 hu
      simp [executeService, hm, hb, hu]
    · intro e hu
      simp [executeService, hm, hb, hu]

/-- C7 witness: with the successful mock backend and a finalizing upload
stub at both clocks equal to zero, the trace records the constructed
record — fresh id `19700101-000000`, snapshot name and type, timestamp 0,
empty allocated tags — and `Execute` returns the finalized record. -/
theorem executeRecordConstruction_witness :
    okDb.getMetadata = Except.ok exDbMeta ∧
    okDb.backup = Except.ok () ∧
    okUpload (executedRecord exDbMeta 0 0) =
      Except.ok { executedRecord exDbMeta 0 0 with checksum := "c", size := 5 } ∧
    ((executeService okDb okUpload 0 0).2 =
      [OrchEvent.getMetadataCall, OrchEvent.backupCall,
       OrchEvent.uploadCall (executedRecord exDbMeta 0 0),
       OrchEvent.streamClose] ∧
     (executedRecord exDbMeta 0 0).id = generateBackupID 0 ∧
     (executeService okDb okUpload 0 0).1 =
       Except.ok { executedRecord exDbMeta 0 0 with checksum := "c", size := 5 }) :=
  ⟨rfl, rfl, rfl,
    ((executeRecordConstruction okDb okUpload 0 0).2.2 exDbMeta rfl rfl).1,
    ((executeRecordConstruction okDb okUpload 0 0).2.2 exDbMeta rfl rfl).2.1,
    ((executeRecordConstruction okDb okUpload 0 0).2.2 exDbMeta rfl rfl).2.2.2.2.2.2.1
      { executedRecord exDbMeta 0 0 with checksum := "c", size := 5 } rfl⟩

/-- Example directory for the listing scenarios: a subdirectory, two dump
files with one sidecar, a stray text file. -/
def exFs : DiskState :=
  [{ name := "sub", isDir := true, content := [], modTime := 5 },
   { name := "a.dump", isDir := false, content := [1], modTime := 10 },
   { name := "a.dump.meta", isDir := false,
     content := strBytes "ID: a-1\nChecksum: abc\n", modTime := 10 },
   { name := "notes.txt", isDir := false, content := [7], modTime := 3 },
   { name := "b.dump", isDir := false, content := [2, 2], modTime := 20 }]

/-- C8: `List` yields exactly one record per non-directory `.dump` entry
(a permutation of their per-entry records — sidecars and other names
contribute nothing), the result is ordered by timestamp newest first, an
empty namespace yields the empty list rather than an error, and any entry
named like a sidecar or without the `.dump` convention is excluded by the
listing filter. -/
theorem diskListSkipsAndSorts :
    ∀ fs : DiskState,
      List.Perm (diskList fs) ((fs.filter listedEntry).map (listRecord fs)) ∧
      List.Pairwise newestFirst (diskList fs) ∧
      diskList ([] : DiskState) = [] ∧
      (∀ e : DirEntry, hasSuffixStr e.name ".meta" = true →
        listedEntry e = false) ∧
      (∀ e : DirEntry, hasSuffixStr e.name ".dump" = false →
        listedEntry e = false) := by
  intro fs
  refine ⟨List.perm_insertionSort newestFirst _,
    List.sorted_insertionSort newestFirst _, rfl, ?_, ?_⟩
  · intro e h
    simp [listedEntry, h]
  · intro e h
    simp [listedEntry, h]

/-- A lone sidecar-named entry. -/
def exMetaEntry : DirEntry :=
  { name := "a.dump.meta", isDir := false, content := [], modTime := 0 }

/-- A stray non-dump entry. -/
def exTxtEntry : DirEntry :=
  { name := "notes.txt", isDir := false, content := [], modTime := 0 }

/-- A directory holding exactly one dump object and no sidecar. -/
def exDumpFs : DiskState :=
  [{ name := "a.dump", isDir := false, content := [1], modTime := 10 }]

/-- C8 witness: on the example directory the listing is a permutation of
the records of its two dump files, newest first; the empty directory
lists to the empty sequence; and a sidecar name and a `.txt` name are
both excluded by the filter. -/
theorem diskListSkipsAndSorts_witness :
    List.Perm (diskList exFs) ((exFs.filter listedEntry).map (listRecord exFs)) ∧
    List.Pairwise newestFirst (diskList exFs) ∧
    diskList ([] : DiskState) = [] ∧
    hasSuffixStr exMetaEntry.name ".meta" = true ∧
    listedEntry exMetaEntry = false ∧
    hasSuffixStr exTxtEntry.name ".dump" = false ∧
    listedEntry exTxtEntry = false :=
  ⟨(diskListSkipsAndSorts exFs).1, (diskListSkipsAndSorts exFs).2.1,
    (diskListSkipsAndSorts exFs).2.2.1, rfl,
    (diskListSkipsAndSorts exFs).2.2.2.1 exMetaEntry rfl, rfl,
    (diskListSkipsAndSorts exFs).2.2.2.2 exTxtEntry rfl⟩

/-- C9: when no directory entry carries the requested id, `Download` and
`Delete` both fail with the `backup not found` error, whose message
contains the id; when an entry with the id exists, `Delete` succeeds —
whether or not a sidecar exists, and in particular when it is absent —
and afterwards no entry carries the id. -/
theorem diskNotFoundErrors :
    ∀ (fs : DiskState) (backupID : String),
      (fs.all (fun e => !(e.name = backupID)) = true →
        diskDownload fs backupID =
          Except.error ("backup not found: " ++ backupID) ∧
        backupID.data <:+: ("backup not found: " ++ backupID).data ∧
        diskDelete fs backupID =
          Except.error ("backup not found: " ++ backupID)) ∧
      (fs.any (fun e => e.name = backupID) = true →
        fs.all (fun e => !(e.name = backupID ++ ".meta")) = true →
        ∃ fs2, diskDelete fs backupID = Except.ok fs2 ∧
          fs2.all (fun e => !(e.name = backupID)) = true) := by
  intro fs backupID
  have hmem : fs.all (fun e => !(e.name = backupID)) = true →
      ∀ x ∈ fs, ¬ x.name = backupID := by
    intro hall x hx
    have := List.all_eq_true.mp hall x hx
    simpa using this
  constructor
  · intro hall
    have hfind : fs.find? (fun e => e.name = backupID) = none := by
      rw [List.find?_eq_none]
      intro x hx
      simpa using hmem hall x hx
    have hany : fs.any (fun e => e.name = backupID) = false := by
      rw [List.any_eq_false]
      intro x hx
      simpa using hmem hall x hx
    refine ⟨by simp [diskDownload, hfind],
      ⟨"backup not found: ".data, [], by simp [strDataAppend]⟩,
      by simp [diskDelete, hany]⟩
  · intro hany _
    refine ⟨(fs.filter (fun e => !(e.name = backupID))).filter
        (fun e => !(e.name = backupID ++ ".meta")), ?_, ?_⟩
    · simp [diskDelete, hany]
    · rw [List.all_eq_true]
      intro x hx
      have hx1 := (List.mem_filter.mp (List.mem_filter.mp hx).1).2
      simpa using hx1

/-- C9 witness: in a directory holding only `a.dump` (no sidecar),
download and delete of `missing` both fail with the id-bearing
`backup not found` error, and delete of `a.dump` succeeds leaving no
entry of that name. -/
theorem diskNotFoundErrors_witness :
    exDumpFs.all (fun e => !(e.name = "missing")) = true ∧
    (diskDownload exDumpFs "missing" =
      Except.error "backup not found: missing" ∧
     "missing".data <:+: "backup not found: missing".data ∧
     diskDelete exDumpFs "missing" =
      Except.error "backup not found: missing") ∧
    (∃ fs2, diskDelete exDumpFs "a.dump" = Except.ok fs2 ∧
      fs2.all (fun e => !(e.name = "a.dump")) = true) :=
  ⟨rfl, (diskNotFoundErrors exDumpFs "missing").1 rfl,
    (diskNotFoundErrors exDumpFs "a.dump").2 rfl rfl⟩

/-- C10: two uploads whose records share `DatabaseName`, `DatabaseType`
and a second-truncated timestamp format target the same filename; the
second upload silently replaces the stored payload of the first (both
succeed — the model's upload is total), and the namespace then holds the
second payload under that single filename, which `List` reports as one
record. -/
theorem uploadSameSecondOverwrites :
    ∀ (data1 data2 : List Nat) (m1 m2 : BackupMetadata) (now1 now2 : Nat),
      m1.databaseName = m2.databaseName →
      m1.databaseType = m2.databaseType →
      formatCompact m1.timestamp = formatCompact m2.timestamp →
      getBackupFilename (diskUpload [] now1 data1 m1).2 =
        getBackupFilename
          (diskUpload (diskUpload [] now1 data1 m1).1 now2 data2 m2).2 ∧
      ((diskUpload (diskUpload [] now1 data1 m1).1 now2 data2 m2).1.filter
          (fun e => e.name = getBackupFilename m2)).map (fun e => e.content) =
        [data2] ∧
      (diskList
        (diskUpload (diskUpload [] now1 data1 m1).1 now2 data2 m2).1).length
        = 1 := by
  intro data1 data2 m1 m2 now1 now2 h1 h2 h3
  have hfn : getBackupFilename m1 = getBackupFilename m2 := by
    unfold getBackupFilename
    rw [h1, h2, h3]
  have hfs1 : (diskUpload [] now1 data1 m1).1 =
      [{ name := getBackupFilename m1, isDir := false, content := data1,
         modTime := now1 },
       { name := getBackupFilename m1 ++ ".meta", isDir := false,
         content := strBytes (metaContent
          { m1 with checksum := md5Hex data1, size := data1.length }),
         modTime := now1 }] := by
    simp only [diskUpload, getBackupFilename_update]
    rw [show writeFile [] (getBackupFilename m1) data1 now1 =
      [{ name := getBackupFilename m1, isDir := false, content := data1,
         modTime := now1 }] from by simp [writeFile]]
    simp [writeFile, stringNeAppendMeta (getBackupFilename m1)]
  have hfs2 : (diskUpload (diskUpload [] now1 data1 m1).1 now2 data2 m2).1 =
      [{ name := getBackupFilename m1, isDir := false, content := data2,
         modTime := now2 },
       { name := getBackupFilename m1 ++ ".meta", isDir := false,
         content := strBytes (metaContent
          { m2 with checksum := md5Hex data2, size := data2.length }),
         modTime := now2 }] := by
    rw [hfs1]
    simp only [diskUpload, getBackupFilename_update, ← hfn]
    rw [show writeFile
      [{ name := getBackupFilename m1, isDir := false, content := data1,
         modTime := now1 },
       { name := getBackupFilename m1 ++ ".meta", isDir := false,
         content := strBytes (metaContent
          { m1 with checksum := md5Hex data1, size := data1.length }),
         modTime := now1 }] (getBackupFilename m1) data2 now2 =
      [{ name := getBackupFilename m1, isDir := false, content := data2,
         modTime := now2 },
       { name := getBackupFilename m1 ++ ".meta", isDir := false,
         content := strBytes (metaContent
          { m1 with checksum := md5Hex data1, size := data1.length }),
         modTime := now1 }] from by
      simp [writeFile, stringAppendMetaNe (getBackupFilename m1)]]
    simp [writeFile, stringAppendMetaNe (getBackupFilename m1)]
    intro h
    exact absurd h (stringNeAppendMeta (getBackupFilename m1))
  refine ⟨hfn, ?_, ?_⟩
  · rw [hfs2, ← hfn]
    simp [stringAppendMetaNe (getBackupFilename m1)]
  · rw [hfs2]
    have hdump : hasSuffixStr (getBackupFilename m1) ".dump" = true := by
      simp only [getBackupFilename]
      simp [hasSuffixAppendOfSuffix, hasSuffixAppendSelf]
    have hmeta := metaSuffixFalseOfDump (getBackupFilename m1) hdump
    simp [diskList, listedEntry, hdump, hmeta, hasSuffixAppendSelf,
      List.insertionSort, List.orderedInsert]

/-- A record sharing name, type and truncated-to-the-second timestamp
with `exMeta` but half a second later and under another id. -/
def exMeta2 : BackupMetadata :=
  { exMeta with id := "backup-002", timestamp := 1708000500500000000 }

/-- C10 witness: `exMeta` and `exMeta2` differ in timestamp by half a
second yet format identically; uploading `"one"` then `"two"` leaves one
`.dump` object holding the bytes of `"two"`, and `List` reports a single
record. -/
theorem uploadSameSecondOverwrites_witness :
    exMeta.databaseName = exMeta2.databaseName ∧
    exMeta.databaseType = exMeta2.databaseType ∧
    exMeta.timestamp ≠ exMeta2.timestamp ∧
    formatCompact exMeta.timestamp = formatCompact exMeta2.timestamp ∧
    (getBackupFilename
        (diskUpload [] 0 (strBytes "one") exMeta).2 =
      getBackupFilename
        (diskUpload (diskUpload [] 0 (strBytes "one") exMeta).1 1
          (strBytes "two") exMeta2).2 ∧
     ((diskUpload (diskUpload [] 0 (strBytes "one") exMeta).1 1
          (strBytes "two") exMeta2).1.filter
        (fun e => e.name = getBackupFilename exMeta2)).map
          (fun e => e.content) = [strBytes "two"] ∧
     (diskList
        (diskUpload (diskUpload [] 0 (strBytes "one") exMeta).1 1
          (strBytes "two") exMeta2).1).length = 1) :=
  ⟨rfl, rfl, by decide, rfl,
    uploadSameSecondOverwrites (strBytes "one") (strBytes "two") exMeta
      exMeta2 0 1 rfl rfl rfl⟩

end GoArchive
